import Mathlib

/-!
Shallow embedding of the Singular adaptive spaced-repetition core
(`app/domain/srs.py`, `app/domain/adaptation.py`, `app/services/exercise.py`,
`app/services/review.py`) and proofs about it.

Conventions of the embedding:
* Python floats are modelled as exact rationals (`ℚ`); all the arithmetic the
  code performs on them (+, -, *, /, min, max, round) is exact.
* `datetime` values are modelled as rational epoch seconds; `timedelta(days=d)`
  is `86400 * d`, `timedelta(minutes=m)` is `60 * m`, `timedelta(hours=h)` is
  `3600 * h`.
* The Python builtin `round` (round-half-to-even) is modelled by `pyRound`.
-/

namespace Singular

/-- `SRSCardState` enum from `app/domain/models.py`. -/
inductive SRSCardState where
  | new
  | learning
  | review
  | relearning
deriving DecidableEq, Repr

/-- The Python builtin `round`: round half to even. -/
def pyRound (x : ℚ) : ℤ :=
  if x - (⌊x⌋ : ℚ) < 1/2 then ⌊x⌋
  else if 1/2 < x - (⌊x⌋ : ℚ) then ⌊x⌋ + 1
  else if ⌊x⌋ % 2 = 0 then ⌊x⌋ else ⌊x⌋ + 1

-- ── Constants from `app/domain/srs.py` ──────────────────────────────────────

def EASE_FACTOR_MIN : ℚ := 1.3
def EASE_FACTOR_DEFAULT : ℚ := 2.5
def EASE_FACTOR_MAX : ℚ := 3.5
def LEARNING_STEPS_MINUTES : List ℤ := [1, 10]
def GRADUATING_INTERVAL_DAYS : ℤ := 1
def RELEARNING_INTERVAL_DAYS : ℤ := 1
def LAPSE_THRESHOLD : ℤ := 3
def LAPSE_EASE_PENALTY : ℚ := 0.20
def ADAPTATION_PENALTY_MULTIPLIER : ℚ := 0.70

/-- `ReviewResult` dataclass from `app/domain/srs.py`. -/
structure ReviewResult where
  new_state : SRSCardState
  new_interval : ℤ
  new_ease_factor : ℚ
  new_repetitions : ℤ
  new_lapses : ℤ
  new_stability : ℚ
  new_due_date : ℚ
  was_correct : Bool
deriving DecidableEq, Repr

/-- `_apply_adaptation_penalty` from `app/domain/srs.py`. -/
def _apply_adaptation_penalty (interval : ℤ) (penalty : ℚ) : ℤ :=
  if penalty ≤ 0 then interval
  else
    let multiplier : ℚ := 1 - (penalty * (1 - ADAPTATION_PENALTY_MULTIPLIER))
    max 1 (pyRound ((interval : ℚ) * multiplier))

/-- `_handle_new_card` from `app/domain/srs.py`. -/
def _handle_new_card (_quality : ℤ) (was_correct : Bool) (ease_factor : ℚ)
    (lapses : ℤ) (stability : ℚ) (_adaptation_penalty : ℚ) (now : ℚ) :
    ReviewResult :=
  if was_correct then
    { new_state := .learning
      new_interval := 0
      new_ease_factor := ease_factor
      new_repetitions := 0
      new_lapses := lapses
      new_stability := stability
      new_due_date := now + 60 * LEARNING_STEPS_MINUTES.headI
      was_correct := true }
  else
    { new_state := .learning
      new_interval := 0
      new_ease_factor := max EASE_FACTOR_MIN (ease_factor - LAPSE_EASE_PENALTY)
      new_repetitions := 0
      new_lapses := lapses
      new_stability := max 0.5 (stability * 0.7)
      new_due_date := now + 60 * 1
      was_correct := false }

/-- `_handle_learning_card` from `app/domain/srs.py`. -/
def _handle_learning_card (_quality : ℤ) (was_correct : Bool) (ease_factor : ℚ)
    (lapses : ℤ) (stability : ℚ) (adaptation_penalty : ℚ)
    (learning_step_index : ℕ) (now : ℚ) : ReviewResult :=
  if was_correct then
    let next_step := learning_step_index + 1
    if next_step ≥ LEARNING_STEPS_MINUTES.length then
      let interval := _apply_adaptation_penalty GRADUATING_INTERVAL_DAYS adaptation_penalty
      { new_state := .review
        new_interval := interval
        new_ease_factor := ease_factor
        new_repetitions := 1
        new_lapses := lapses
        new_stability := max stability ((interval : ℚ) * 0.8)
        new_due_date := now + 86400 * interval
        was_correct := true }
    else
      { new_state := .learning
        new_interval := 0
        new_ease_factor := ease_factor
        new_repetitions := 0
        new_lapses := lapses
        new_stability := stability
        new_due_date := now + 60 * (LEARNING_STEPS_MINUTES.getD next_step 0)
        was_correct := true }
  else
    { new_state := .learning
      new_interval := 0
      new_ease_factor := max EASE_FACTOR_MIN (ease_factor - LAPSE_EASE_PENALTY)
      new_repetitions := 0
      new_lapses := lapses
      new_stability := max 0.5 (stability * 0.7)
      new_due_date := now + 60 * LEARNING_STEPS_MINUTES.headI
      was_correct := false }

/-- `_handle_review_card` from `app/domain/srs.py`. -/
def _handle_review_card (_quality : ℤ) (was_correct : Bool) (interval : ℤ)
    (ease_factor : ℚ) (repetitions : ℤ) (lapses : ℤ) (stability : ℚ)
    (adaptation_penalty : ℚ) (now : ℚ) : ReviewResult :=
  if was_correct then
    let new_interval_raw : ℤ :=
      if repetitions = 1 then 6 else pyRound ((interval : ℚ) * ease_factor)
    let new_interval := _apply_adaptation_penalty new_interval_raw adaptation_penalty
    let new_interval := max 1 new_interval
    { new_state := .review
      new_interval := new_interval
      new_ease_factor := ease_factor
      new_repetitions := repetitions + 1
      new_lapses := lapses
      new_stability := (new_interval : ℚ) * 0.9
      new_due_date := now + 86400 * new_interval
      was_correct := true }
  else
    let new_interval := RELEARNING_INTERVAL_DAYS
    { new_state := .relearning
      new_interval := new_interval
      new_ease_factor := max EASE_FACTOR_MIN (ease_factor - LAPSE_EASE_PENALTY)
      new_repetitions := 0
      new_lapses := lapses + 1
      new_stability := max 0.5 (stability * 0.5)
      new_due_date := now + 86400 * new_interval
      was_correct := false }

/-- `_handle_relearning_card` from `app/domain/srs.py`. -/
def _handle_relearning_card (_quality : ℤ) (was_correct : Bool) (ease_factor : ℚ)
    (lapses : ℤ) (stability : ℚ) (adaptation_penalty : ℚ) (now : ℚ) :
    ReviewResult :=
  if was_correct then
    let interval := _apply_adaptation_penalty (RELEARNING_INTERVAL_DAYS + 1) adaptation_penalty
    { new_state := .review
      new_interval := interval
      new_ease_factor := ease_factor
      new_repetitions := 1
      new_lapses := lapses
      new_stability := max stability ((interval : ℚ) * 0.7)
      new_due_date := now + 86400 * interval
      was_correct := true }
  else
    { new_state := .relearning
      new_interval := 0
      new_ease_factor := max EASE_FACTOR_MIN (ease_factor - LAPSE_EASE_PENALTY)
      new_repetitions := 0
      new_lapses := lapses + 1
      new_stability := max 0.3 (stability * 0.5)
      new_due_date := now + 3600 * 4
      was_correct := false }

/-- `calculate_next_review` from `app/domain/srs.py`.  The `now` argument is
made mandatory (the Python default `datetime.utcnow()` is an injected clock). -/
def calculate_next_review (quality : ℤ) (current_state : SRSCardState)
    (interval : ℤ) (ease_factor : ℚ) (repetitions : ℤ) (lapses : ℤ)
    (stability : ℚ) (adaptation_penalty : ℚ := 0) (learning_step_index : ℕ := 0)
    (now : ℚ := 0) : ReviewResult :=
  let was_correct := LAPSE_THRESHOLD ≤ quality
  let new_ease_factor :=
    ease_factor + (0.1 - ((5 : ℚ) - quality) * (0.08 + ((5 : ℚ) - quality) * 0.02))
  let new_ease_factor := max EASE_FACTOR_MIN (min EASE_FACTOR_MAX new_ease_factor)
  match current_state with
  | .new =>
      _handle_new_card quality was_correct new_ease_factor lapses stability
        adaptation_penalty now
  | .learning =>
      _handle_learning_card quality was_correct new_ease_factor lapses stability
        adaptation_penalty learning_step_index now
  | .review =>
      _handle_review_card quality was_correct interval new_ease_factor repetitions
        lapses stability adaptation_penalty now
  | .relearning =>
      _handle_relearning_card quality was_correct new_ease_factor lapses stability
        adaptation_penalty now

/-- The shared SM-2 ease update applied before branching
(`srs.py` lines 100–101), as its own definition for stating theorems. -/
def sm2EaseUpdate (ease_factor : ℚ) (quality : ℤ) : ℚ :=
  max EASE_FACTOR_MIN (min EASE_FACTOR_MAX
    (ease_factor + (0.1 - ((5 : ℚ) - quality) * (0.08 + ((5 : ℚ) - quality) * 0.02))))

/-- `get_card_urgency_score` from `app/domain/srs.py`.  The `state_priority`
dict covers all four states, so the `.get(state, 0)` default is the match. -/
def state_priority (state : SRSCardState) : ℚ :=
  match state with
  | .relearning => 100
  | .learning => 50
  | .review => 10
  | .new => 1

/-- `get_card_urgency_score` from `app/domain/srs.py`.  `due_date` is `None` or
an epoch timestamp; `(now - due_date).total_seconds()` is `now - d` seconds. -/
def get_card_urgency_score (due_date : Option ℚ) (state : SRSCardState)
    (lapses : ℤ) (now : ℚ) : ℚ :=
  let base_score : ℚ := 0
  let base_score := base_score + state_priority state
  let base_score := base_score +
    (match due_date with
     | some d => max 0 ((now - d) / 3600 * 2)
     | none => 0)
  base_score + (lapses : ℚ) * 5

/-- Modelled from the claim text of the spec (§4.2): delay in hours, `0` when
`due_at` is null or not yet due.  Used to compare the score computed by the
code with the formula stated in the spec. -/
def delay_hours_spec (due_at : Option ℚ) (now : ℚ) : ℚ :=
  match due_at with
  | none => 0
  | some d => if now < d then 0 else (now - d) / 3600

/-- Modelled from the claim text of the spec (§4.2): the urgency-score formula
`state_priority(state) + max(0, delay_hours × 2) + lapses × 5`. -/
def urgency_score_spec (due_at : Option ℚ) (state : SRSCardState) (lapses : ℤ)
    (now : ℚ) : ℚ :=
  state_priority state + max 0 (delay_hours_spec due_at now * 2) + (lapses : ℚ) * 5

-- ── Answer evaluator (`app/services/exercise.py`) ───────────────────────────

/-- `ExerciseType` enum from `app/domain/models.py`. -/
inductive ExerciseType where
  | translation
  | fill_blank
  | build_sentence
deriving DecidableEq, Repr

/-- `AnswerEvaluation` dataclass from `app/services/exercise.py`. -/
structure AnswerEvaluation where
  is_correct : Bool
  score : ℚ
  feedback : String
  error_category : Option String := none
deriving DecidableEq, Repr

/-- The character class of `re.sub(r"[。、！？\.!?,;]$", "", text)` in
`_normalize_answer`. -/
def _trailing_punct_chars : List Char := ['。', '、', '！', '？', '.', '!', '?', ',', ';']

/-- Collapse every run of whitespace into a single space — the
`re.sub(r"\s+", " ", text)` step of `_normalize_answer`.  The boolean tracks
whether the previous character was part of a whitespace run. -/
def _collapse_ws : List Char → Bool → List Char
  | [], _ => []
  | c :: rest, prevWS =>
      if c.isWhitespace then
        if prevWS then _collapse_ws rest true
        else ' ' :: _collapse_ws rest true
      else c :: _collapse_ws rest false

/-- The Python `str.strip()`: drop leading and trailing whitespace. -/
def _py_strip (s : List Char) : List Char :=
  ((s.dropWhile Char.isWhitespace).reverse.dropWhile Char.isWhitespace).reverse

/-- `_normalize_answer` from `app/services/exercise.py`: strip, lowercase,
drop a single trailing sentence-ending punctuation mark, collapse whitespace. -/
def _normalize_answer (text : String) : String :=
  let t := (_py_strip text.toList).map Char.toLower
  let t := if t ≠ [] ∧ t.getLastD ' ' ∈ _trailing_punct_chars then t.dropLast else t
  String.mk (_collapse_ws t false)

/-- The Python `str.split(sep)` for a one-character separator: split at every
occurrence, keeping empty parts. -/
def _split_on_char (sep : Char) : List Char → List (List Char)
  | [] => [[]]
  | c :: rest =>
      match _split_on_char sep rest with
      | [] => [[]]
      | w :: ws => if c = sep then [] :: w :: ws else (c :: w) :: ws

/-- The Python `str.split()` (no separator): split on whitespace, keeping the
(later dropped) empty parts. -/
def _split_ws : List Char → List (List Char)
  | [] => [[]]
  | c :: rest =>
      match _split_ws rest with
      | [] => [[]]
      | w :: ws => if c.isWhitespace then [] :: w :: ws else (c :: w) :: ws

/-- The Python `set(s.split())`: the word set of a string. -/
def _word_set (s : String) : Finset String :=
  (((_split_ws s.toList).map String.mk).filter (fun w => w ≠ "")).toFinset

/-- `_evaluate_build_sentence` from `app/services/exercise.py`. -/
def _evaluate_build_sentence (user_norm expected_norm : String)
    (_user_raw expected_raw : String) : AnswerEvaluation :=
  let user_words := _word_set user_norm
  let expected_words := _word_set expected_norm
  if user_words = expected_words then
    { is_correct := false
      score := 0.7
      feedback := "Palavras corretas, mas a ordem está errada. Correto: " ++ expected_raw
      error_category := some "order" }
  else
    let intersection := user_words ∩ expected_words
    if 0 < expected_words.card ∧
        (0.7 : ℚ) ≤ (intersection.card : ℚ) / (expected_words.card : ℚ) then
      { is_correct := false
        score := (intersection.card : ℚ) / (expected_words.card : ℚ)
        feedback := "Quase! Verifique as palavras. Correto: " ++ expected_raw
        error_category := some "order" }
    else
      { is_correct := false
        score := 0
        feedback := "Resposta incorreta. Correto: " ++ expected_raw
        error_category := some "meaning" }

/-- `_evaluate_fill_blank` from `app/services/exercise.py`. -/
def _evaluate_fill_blank (user_norm : String) (accepted_norms : List String)
    (_user_raw expected_raw : String) : AnswerEvaluation :=
  if accepted_norms.any
      (fun accepted =>
        accepted.toList.isPrefixOf user_norm.toList ||
          user_norm.toList.isPrefixOf accepted.toList) then
    { is_correct := true, score := 0.9, feedback := "Correto!" }
  else
    { is_correct := false
      score := 0
      feedback := "Resposta incorreta. Esperado: " ++ expected_raw
      error_category := some "vocabulary" }

/-- `_char_similarity` from `app/services/exercise.py`. -/
def _char_similarity (s1 s2 : String) : ℚ :=
  if s1 = "" ∨ s2 = "" then 0
  else
    let s1_chars := s1.toList.toFinset
    let s2_chars := s2.toList.toFinset
    let intersection := s1_chars ∩ s2_chars
    let union := s1_chars ∪ s2_chars
    if union.card ≠ 0 then (intersection.card : ℚ) / (union.card : ℚ) else 0

/-- Contiguous-substring test: the Python `needle in hay` for strings. -/
def _substr_in (needle : List Char) : List Char → Bool
  | [] => needle.isEmpty
  | c :: rest => needle.isPrefixOf (c :: rest) || _substr_in needle rest

/-- `_evaluate_translation` from `app/services/exercise.py`.  The Python test
`accepted in user_norm or user_norm in accepted` is substring containment. -/
def _evaluate_translation (user_norm : String) (accepted_norms : List String)
    (_user_raw expected_raw : String) : AnswerEvaluation :=
  if accepted_norms.any
      (fun accepted =>
        _substr_in accepted.toList user_norm.toList ||
          _substr_in user_norm.toList accepted.toList) then
    { is_correct := true, score := 0.85, feedback := "Correto! (resposta parcialmente aceita)" }
  else
    let score := _char_similarity user_norm (accepted_norms.headD "")
    if (0.7 : ℚ) ≤ score then
      { is_correct := false
        score := score
        feedback := "Próximo, mas não exato. Esperado: " ++ expected_raw
        error_category := some "spelling" }
    else
      { is_correct := false
        score := score
        feedback := "Resposta incorreta. Esperado: " ++ expected_raw
        error_category := some "vocabulary" }

/-- `evaluate_answer` from `app/services/exercise.py`.  The (unused)
`tolerance` default argument is kept as a parameter. -/
def evaluate_answer (user_answer expected_answer : String)
    (exercise_type : ExerciseType) (_tolerance : ℚ := 0.85) : AnswerEvaluation :=
  if _py_strip user_answer.toList = [] then
    { is_correct := false
      score := 0
      feedback := "Resposta em branco."
      error_category := some "empty" }
  else
    let user_norm := _normalize_answer user_answer
    let expected_norm := _normalize_answer expected_answer
    if user_norm = expected_norm then
      { is_correct := true, score := 1, feedback := "Perfeito!" }
    else
      let accepted_answers :=
        ((_split_on_char '/' expected_answer.toList).map String.mk).map _normalize_answer
      if user_norm ∈ accepted_answers then
        { is_correct := true, score := 1, feedback := "Correto!" }
      else
        match exercise_type with
        | .build_sentence =>
            _evaluate_build_sentence user_norm expected_norm user_answer expected_answer
        | .fill_blank =>
            _evaluate_fill_blank user_norm accepted_answers user_answer expected_answer
        | .translation =>
            _evaluate_translation user_norm accepted_answers user_answer expected_answer

-- ── Data model for the detector and the review service ──────────────────────
-- Purified relational state: each SQLAlchemy table becomes a list of records
-- in insertion order; `query(...).first()` becomes `List.find?`.  Fields the
-- claims never touch (free-text descriptions, JSON snapshots,
-- `first_detected_at`, server-side ids) are abstracted away.

/-- `CardType` enum from `app/domain/models.py`. -/
inductive CardType where
  | vocab
  | phrase
  | grammar
deriving DecidableEq, Repr

/-- `PatternType` enum from `app/domain/models.py`. -/
inductive PatternType where
  | vocab_weakness
  | grammar_confusion
  | structure_confusion
deriving DecidableEq, Repr

/-- `Card` row (the columns the detector reads). -/
structure CardM where
  id : ℕ
  card_type : CardType
deriving DecidableEq, Repr

/-- `SRSState` row from `app/domain/models.py`. -/
structure SRSStateM where
  card_id : ℕ
  user_id : ℕ
  interval : ℤ
  ease_factor : ℚ
  repetitions : ℤ
  lapses : ℤ
  state : SRSCardState
  due_date : Option ℚ
  last_reviewed_at : Option ℚ
  stability : ℚ
  adaptation_penalty : ℚ
deriving DecidableEq, Repr

/-- `ReviewLog` row (the columns the detector and service read/write). -/
structure ReviewLogM where
  card_id : ℕ
  user_id : ℕ
  quality : ℤ
  response_time_ms : Option ℤ
  was_correct : Bool
  reviewed_at : ℚ
deriving DecidableEq, Repr

/-- `Exercise` row (the columns the detector reads). -/
structure ExerciseM where
  id : ℕ
  exercise_type : ExerciseType
  card_id : Option ℕ
deriving DecidableEq, Repr

/-- `ExerciseSubmission` row (the columns the detector reads). -/
structure ExerciseSubmissionM where
  exercise_id : ℕ
  user_id : ℕ
  is_correct : Bool
  submitted_at : ℚ
deriving DecidableEq, Repr

/-- `ErrorPattern` row from `app/domain/models.py` (`items_affected` is a JSON
list used with set semantics: built by `list(set(...))` and merged by union). -/
structure ErrorPatternM where
  user_id : ℕ
  pattern_type : PatternType
  count : ℤ
  severity : ℚ
  items_affected : Finset ℕ
  is_active : Bool
  last_seen_at : ℚ
deriving DecidableEq

/-- The database session state: one list per table, in insertion order. -/
structure Database where
  cards : List CardM
  srs_states : List SRSStateM
  review_logs : List ReviewLogM
  exercises : List ExerciseM
  exercise_submissions : List ExerciseSubmissionM
  error_patterns : List ErrorPatternM
deriving DecidableEq

/-- In-place mutation of the first row matched by `pred` (SQLAlchemy mutates
the found ORM object; rows are keyed uniquely in all uses). -/
def updateFirst {α : Type} (pred : α → Bool) (f : α → α) : List α → List α
  | [] => []
  | x :: xs => if pred x then f x :: xs else x :: updateFirst pred f xs

-- ── Detector constants from `app/domain/adaptation.py` ──────────────────────

def VOCAB_ERROR_THRESHOLD : ℚ := 0.40
def GRAMMAR_ERROR_THRESHOLD : ℚ := 0.35
def STRUCTURE_ERROR_THRESHOLD : ℚ := 0.45
def ANALYSIS_WINDOW_DAYS : ℚ := 7
def MIN_REVIEWS_FOR_ANALYSIS : ℕ := 5
def MAX_SEVERITY : ℚ := 1.0
def SEVERITY_INCREMENT : ℚ := 0.2

/-- `_get_card_type` from `app/domain/adaptation.py`. -/
def _get_card_type (card_id : ℕ) (cards : List CardM) : Option CardType :=
  (cards.find? (fun c => c.id = card_id)).map (fun c => c.card_type)

/-- `_get_exercise_type` from `app/domain/adaptation.py`. -/
def _get_exercise_type (exercise_id : ℕ) (exercises : List ExerciseM) :
    Option ExerciseType :=
  (exercises.find? (fun e => e.id = exercise_id)).map (fun e => e.exercise_type)

/-- `_upsert_pattern` from `app/domain/adaptation.py`: match the first ACTIVE
pattern of the (user, type) pair; bump it, or else append a fresh row.
Returns the created/updated pattern and the new `error_patterns` table. -/
def _upsert_pattern (user_id : ℕ) (pattern_type : PatternType)
    (affected_cards : List ℕ) (now : ℚ) (patterns : List ErrorPatternM) :
    ErrorPatternM × List ErrorPatternM :=
  let isMatch : ErrorPatternM → Bool := fun p =>
    p.user_id = user_id ∧ p.pattern_type = pattern_type ∧ p.is_active
  match patterns.find? isMatch with
  | some existing =>
      let updated : ErrorPatternM :=
        { existing with
          count := existing.count + 1
          severity := min MAX_SEVERITY (existing.severity + SEVERITY_INCREMENT)
          last_seen_at := now
          items_affected := existing.items_affected ∪ affected_cards.toFinset }
      (updated, updateFirst isMatch (fun _ => updated) patterns)
  | none =>
      let pattern : ErrorPatternM :=
        { user_id := user_id
          pattern_type := pattern_type
          count := 1
          severity := SEVERITY_INCREMENT
          items_affected := affected_cards.toFinset
          is_active := true
          last_seen_at := now }
      (pattern, patterns ++ [pattern])

/-- `_apply_srs_penalty_to_cards` from `app/domain/adaptation.py`. -/
def _apply_srs_penalty_to_cards (card_ids : List ℕ) (penalty : ℚ)
    (srs_states : List SRSStateM) : List SRSStateM :=
  card_ids.foldl
    (fun states card_id =>
      updateFirst (fun s => s.card_id = card_id)
        (fun s => { s with adaptation_penalty := min 1.0 penalty }) states)
    srs_states

/-- `_analyze_vocab_errors` from `app/domain/adaptation.py`.  Returns the
detected patterns plus the updated `error_patterns` and `srs_states` tables. -/
def _analyze_vocab_errors (user_id : ℕ) (reviews : List ReviewLogM) (now : ℚ)
    (cards : List CardM) (patterns : List ErrorPatternM)
    (srs_states : List SRSStateM) :
    List ErrorPatternM × List ErrorPatternM × List SRSStateM :=
  let vocab_errors := reviews.filter (fun r =>
    match cards.find? (fun c => c.id = r.card_id) with
    | some card => card.card_type = CardType.vocab ∧ r.was_correct = false
    | none => False)
  let affected_cards := vocab_errors.map (fun r => r.card_id)
  let vocab_reviews := reviews.filter (fun r =>
    _get_card_type r.card_id cards = some CardType.vocab)
  if vocab_reviews = [] then ([], patterns, srs_states)
  else
    let error_rate : ℚ :=
      if vocab_reviews ≠ [] then
        (vocab_errors.length : ℚ) / (vocab_reviews.length : ℚ)
      else 0
    if VOCAB_ERROR_THRESHOLD ≤ error_rate then
      let up := _upsert_pattern user_id PatternType.vocab_weakness
        affected_cards.dedup now patterns
      let srs_states := _apply_srs_penalty_to_cards affected_cards.dedup 0.6 srs_states
      ([up.1], up.2, srs_states)
    else ([], patterns, srs_states)

/-- `_analyze_grammar_errors` from `app/domain/adaptation.py`. -/
def _analyze_grammar_errors (user_id : ℕ) (reviews : List ReviewLogM) (now : ℚ)
    (cards : List CardM) (patterns : List ErrorPatternM)
    (srs_states : List SRSStateM) :
    List ErrorPatternM × List ErrorPatternM × List SRSStateM :=
  let grammar_errors := reviews.filter (fun r =>
    _get_card_type r.card_id cards = some CardType.grammar ∧ r.was_correct = false)
  let affected_cards := grammar_errors.map (fun r => r.card_id)
  let grammar_reviews := reviews.filter (fun r =>
    _get_card_type r.card_id cards = some CardType.grammar)
  if grammar_reviews = [] then ([], patterns, srs_states)
  else
    let error_rate : ℚ :=
      (grammar_errors.length : ℚ) / (grammar_reviews.length : ℚ)
    if GRAMMAR_ERROR_THRESHOLD ≤ error_rate then
      let up := _upsert_pattern user_id PatternType.grammar_confusion
        affected_cards.dedup now patterns
      let srs_states := _apply_srs_penalty_to_cards affected_cards.dedup 0.5 srs_states
      ([up.1], up.2, srs_states)
    else ([], patterns, srs_states)

/-- `_analyze_structure_errors` from `app/domain/adaptation.py`.  (Affected
cards come from the nullable `card_id` of the exercise.) -/
def _analyze_structure_errors (user_id : ℕ)
    (submissions : List ExerciseSubmissionM) (now : ℚ)
    (exercises : List ExerciseM) (patterns : List ErrorPatternM) :
    List ErrorPatternM × List ErrorPatternM :=
  let structure_errors := submissions.filter (fun s =>
    match exercises.find? (fun e => e.id = s.exercise_id) with
    | some exercise =>
        exercise.exercise_type = ExerciseType.build_sentence ∧ s.is_correct = false
    | none => False)
  let affected_cards := structure_errors.filterMap (fun s =>
    match exercises.find? (fun e => e.id = s.exercise_id) with
    | some exercise => exercise.card_id
    | none => none)
  let structure_submissions := submissions.filter (fun s =>
    _get_exercise_type s.exercise_id exercises = some ExerciseType.build_sentence)
  if structure_submissions = [] then ([], patterns)
  else
    let error_rate : ℚ :=
      (structure_errors.length : ℚ) / (structure_submissions.length : ℚ)
    if STRUCTURE_ERROR_THRESHOLD ≤ error_rate then
      let up := _upsert_pattern user_id PatternType.structure_confusion
        affected_cards.dedup now patterns
      ([up.1], up.2)
    else ([], patterns)

/-- The trailing-window `ReviewLog` query of `analyze_and_update_patterns` and
`resolve_pattern_if_improved`. -/
def recent_review_logs (user_id : ℕ) (now : ℚ) (db : Database) : List ReviewLogM :=
  db.review_logs.filter (fun r =>
    r.user_id = user_id ∧ now - 86400 * ANALYSIS_WINDOW_DAYS ≤ r.reviewed_at)

/-- The trailing-window `ExerciseSubmission` query of
`analyze_and_update_patterns`. -/
def recent_submissions_q (user_id : ℕ) (now : ℚ) (db : Database) :
    List ExerciseSubmissionM :=
  db.exercise_submissions.filter (fun s =>
    s.user_id = user_id ∧ now - 86400 * ANALYSIS_WINDOW_DAYS ≤ s.submitted_at)

/-- `analyze_and_update_patterns` from `app/domain/adaptation.py`.  Returns
the active (created/updated) patterns and the committed database. -/
def analyze_and_update_patterns (user_id : ℕ) (now : ℚ) (db : Database) :
    List ErrorPatternM × Database :=
  let recent_reviews := recent_review_logs user_id now db
  let reviewPart :=
    if MIN_REVIEWS_FOR_ANALYSIS ≤ recent_reviews.length then
      let v := _analyze_vocab_errors user_id recent_reviews now db.cards
        db.error_patterns db.srs_states
      let g := _analyze_grammar_errors user_id recent_reviews now db.cards
        v.2.1 v.2.2
      (v.1 ++ g.1, g.2.1, g.2.2)
    else ([], db.error_patterns, db.srs_states)
  let recent_submissions := recent_submissions_q user_id now db
  let submissionPart :=
    if MIN_REVIEWS_FOR_ANALYSIS ≤ recent_submissions.length then
      _analyze_structure_errors user_id recent_submissions now db.exercises
        reviewPart.2.1
    else ([], reviewPart.2.1)
  (reviewPart.1 ++ submissionPart.1,
    { db with error_patterns := submissionPart.2, srs_states := reviewPart.2.2 })

/-- `resolve_pattern_if_improved` from `app/domain/adaptation.py`: deactivate
each active pattern whose affected items, over the trailing window, have at
least the minimum sample and an error rate below 20%. -/
def resolve_pattern_if_improved (user_id : ℕ) (now : ℚ) (db : Database) :
    List ErrorPatternM × Database :=
  let recent_reviews := recent_review_logs user_id now db
  let shouldResolve : ErrorPatternM → Bool := fun p =>
    p.user_id = user_id ∧ p.is_active ∧ p.items_affected ≠ ∅ ∧
      (let pattern_reviews := recent_reviews.filter (fun r => r.card_id ∈ p.items_affected)
       MIN_REVIEWS_FOR_ANALYSIS ≤ pattern_reviews.length ∧
         ((pattern_reviews.filter (fun r => r.was_correct = false)).length : ℚ) /
           (pattern_reviews.length : ℚ) < 0.20)
  let patterns := db.error_patterns.map (fun p =>
    if shouldResolve p then { p with is_active := false } else p)
  ((db.error_patterns.filter shouldResolve).map (fun p => { p with is_active := false }),
    { db with error_patterns := patterns })

-- ── Review service (`app/services/review.py`) ───────────────────────────────

/-- `_quality_feedback` from `app/services/review.py`. -/
def _quality_feedback (quality : ℤ) : String :=
  if quality = 0 then "Não lembrou. O card voltará em breve."
  else if quality = 1 then "Errou, mas a resposta era familiar."
  else if quality = 2 then "Errou, mas reconheceu a resposta correta."
  else if quality = 3 then "Correto, mas foi difícil. Continue praticando!"
  else if quality = 4 then "Bom! Com um pouco de hesitação."
  else if quality = 5 then "Perfeito! Resposta fácil e rápida."
  else "Revisão registrada."

/-- The response dict of `submit_review`. -/
structure SubmitReviewResponse where
  card_id : ℕ
  was_correct : Bool
  new_state : SRSCardState
  new_interval : ℤ
  next_due : ℚ
  quality : ℤ
  feedback : String
deriving DecidableEq, Repr

/-- The in-place `SRSState` update performed by `submit_review`
(`review.py` lines 177–188), including the opportunistic penalty relaxation
after a correct answer. -/
def _update_srs_from_result (srs : SRSStateM) (r : ReviewResult) (now : ℚ) :
    SRSStateM :=
  { srs with
    state := r.new_state
    interval := r.new_interval
    ease_factor := r.new_ease_factor
    repetitions := r.new_repetitions
    lapses := r.new_lapses
    stability := r.new_stability
    due_date := some r.new_due_date
    last_reviewed_at := some now
    adaptation_penalty :=
      if r.was_correct then max 0.0 (srs.adaptation_penalty - 0.1)
      else srs.adaptation_penalty }

/-- `submit_review` from `app/services/review.py`.  The raised `ValueError`
becomes `Except.error`; an exception leaves the session state as it was, so
the result carries the (then-unchanged) database alongside.  The best-effort
`analyze_and_update_patterns` call never fails in the model. -/
def submit_review (user_id card_id : ℕ) (quality : ℤ)
    (response_time_ms : Option ℤ) (now : ℚ) (db : Database) :
    Except String SubmitReviewResponse × Database :=
  let quality := max 0 (min 5 quality)
  match db.srs_states.find? (fun s => s.card_id = card_id ∧ s.user_id = user_id) with
  | none =>
      (Except.error ("SRSState não encontrado para card " ++ toString card_id), db)
  | some srs =>
      let review_result := calculate_next_review quality srs.state srs.interval
        srs.ease_factor srs.repetitions srs.lapses srs.stability
        srs.adaptation_penalty 0 now
      let srs' := _update_srs_from_result srs review_result now
      let log : ReviewLogM :=
        { card_id := card_id
          user_id := user_id
          quality := quality
          response_time_ms := response_time_ms
          was_correct := review_result.was_correct
          reviewed_at := now }
      let db :=
        { db with
          srs_states :=
            updateFirst (fun s => s.card_id = card_id ∧ s.user_id = user_id)
              (fun _ => srs') db.srs_states
          review_logs := db.review_logs ++ [log] }
      let db := (analyze_and_update_patterns user_id now db).2
      (Except.ok
        { card_id := card_id
          was_correct := review_result.was_correct
          new_state := review_result.new_state
          new_interval := review_result.new_interval
          next_due := review_result.new_due_date
          quality := quality
          feedback := _quality_feedback quality },
        db)

/-- One full review transition as iterated by successive `submit_review`
calls: feed the scheduler output back as the stored record of the item. -/
def review_step (srs : SRSStateM) (q : ℤ) (now : ℚ) : SRSStateM :=
  _update_srs_from_result srs
    (calculate_next_review q srs.state srs.interval srs.ease_factor
      srs.repetitions srs.lapses srs.stability srs.adaptation_penalty 0 now) now

/-- All intermediate scheduling records along a quality sequence (each entry
of `qs` is a rating with the time of that review), initial record included. -/
def review_trace (srs : SRSStateM) (qs : List (ℤ × ℚ)) : List SRSStateM :=
  List.scanl (fun s p => review_step s p.1 p.2) srs qs

-- ── Helper lemmas ───────────────────────────────────────────────────────────

lemma pyRound_le_ceil (x : ℚ) : pyRound x ≤ ⌈x⌉ := by
  unfold pyRound
  split_ifs with h1 h2 h3
  · exact Int.floor_le_ceil x
  · have hx : (⌊x⌋ : ℚ) < x := by linarith
    have := Int.lt_ceil.mpr hx
    omega
  · have hx : (⌊x⌋ : ℚ) < x := by
      push_neg at h1
      linarith
    have := Int.lt_ceil.mpr hx
    omega
  · have hx : (⌊x⌋ : ℚ) < x := by
      push_neg at h1
      linarith
    have := Int.lt_ceil.mpr hx
    omega

lemma one_le_apply_penalty (i : ℤ) (p : ℚ) (hi : 1 ≤ i) :
    1 ≤ _apply_adaptation_penalty i p := by
  unfold _apply_adaptation_penalty
  split_ifs with h
  · exact hi
  · exact le_max_left _ _

lemma ease_min_le_max : EASE_FACTOR_MIN ≤ EASE_FACTOR_MAX := by
  norm_num [EASE_FACTOR_MIN, EASE_FACTOR_MAX]

lemma sm2EaseUpdate_bounds (ease_factor : ℚ) (quality : ℤ) :
    EASE_FACTOR_MIN ≤ sm2EaseUpdate ease_factor quality ∧
      sm2EaseUpdate ease_factor quality ≤ EASE_FACTOR_MAX := by
  unfold sm2EaseUpdate
  exact ⟨le_max_left _ _, max_le ease_min_le_max (min_le_left _ _)⟩

lemma lapse_drop_bounds (e : ℚ) (he : e ≤ EASE_FACTOR_MAX) :
    EASE_FACTOR_MIN ≤ max EASE_FACTOR_MIN (e - LAPSE_EASE_PENALTY) ∧
      max EASE_FACTOR_MIN (e - LAPSE_EASE_PENALTY) ≤ EASE_FACTOR_MAX := by
  constructor
  · exact le_max_left _ _
  · refine max_le ease_min_le_max ?_
    have : (0 : ℚ) ≤ LAPSE_EASE_PENALTY := by norm_num [LAPSE_EASE_PENALTY]
    linarith

/-- Every branch of the scheduler returns an ease factor inside the clamp. -/
lemma new_ease_factor_bounds (quality : ℤ) (current_state : SRSCardState)
    (interval : ℤ) (ease_factor : ℚ) (repetitions lapses : ℤ)
    (stability adaptation_penalty : ℚ) (learning_step_index : ℕ) (now : ℚ) :
    EASE_FACTOR_MIN ≤ (calculate_next_review quality current_state interval
        ease_factor repetitions lapses stability adaptation_penalty
        learning_step_index now).new_ease_factor ∧
      (calculate_next_review quality current_state interval ease_factor
        repetitions lapses stability adaptation_penalty learning_step_index
        now).new_ease_factor ≤ EASE_FACTOR_MAX := by
  have hb := sm2EaseUpdate_bounds ease_factor quality
  rw [sm2EaseUpdate] at hb
  cases current_state <;>
    simp only [calculate_next_review, _handle_new_card, _handle_learning_card,
      _handle_review_card, _handle_relearning_card] <;>
    split_ifs <;>
    first
      | exact hb
      | exact lapse_drop_bounds _ hb.2

lemma review_step_ease (s : SRSStateM) (q : ℤ) (now : ℚ) :
    (review_step s q now).ease_factor =
      (calculate_next_review q s.state s.interval s.ease_factor s.repetitions
        s.lapses s.stability s.adaptation_penalty 0 now).new_ease_factor := rfl

lemma review_trace_ease_bounds (s : SRSStateM) (qs : List (ℤ × ℚ))
    (h1 : EASE_FACTOR_MIN ≤ s.ease_factor) (h2 : s.ease_factor ≤ EASE_FACTOR_MAX) :
    ∀ r ∈ review_trace s qs,
      EASE_FACTOR_MIN ≤ r.ease_factor ∧ r.ease_factor ≤ EASE_FACTOR_MAX := by
  induction qs generalizing s with
  | nil =>
      intro r hr
      rw [review_trace, List.scanl] at hr
      simp only [List.mem_singleton] at hr
      exact hr ▸ ⟨h1, h2⟩
  | cons p qs ih =>
      intro r hr
      rw [review_trace, List.scanl] at hr
      simp only [List.mem_cons] at hr
      rcases hr with rfl | hr
      · exact ⟨h1, h2⟩
      · have hstep := new_ease_factor_bounds p.1 s.state s.interval s.ease_factor
          s.repetitions s.lapses s.stability s.adaptation_penalty 0 p.2
        exact ih (review_step s p.1 p.2)
          (by rw [review_step_ease]; exact hstep.1)
          (by rw [review_step_ease]; exact hstep.2) r hr

-- ── Claim theorems ──────────────────────────────────────────────────────────

/-- C1, counterexample: a New-state item rated 5 with input ease 2.5 comes
back with ease factor 2.6, not the unchanged input value 2.5 — the shared
SM-2 ease update runs before the New-state branch. -/
theorem c1_counterexample :
    (calculate_next_review 5 SRSCardState.new 0 2.5 0 0 1 0 0 0).new_ease_factor = 2.6 ∧
      ¬ (calculate_next_review 5 SRSCardState.new 0 2.5 0 0 1 0 0 0).new_ease_factor = 2.5 := by
  norm_num [calculate_next_review, _handle_new_card, EASE_FACTOR_MIN,
    EASE_FACTOR_MAX, LAPSE_THRESHOLD]

/-- C1, amended: for every New-state item rated correct (quality ≥ 3),
`calculate_next_review` returns state Learning with due date
`now + first learning step` (1 minute) and ease factor equal to the shared
SM-2 ease update (clamped to [1.3, 3.5]) of the input ease — the New-state
branch itself adds no further change. -/
theorem c1_new_correct_starts_learning (quality interval : ℤ) (ease_factor : ℚ)
    (repetitions lapses : ℤ) (stability adaptation_penalty : ℚ)
    (learning_step_index : ℕ) (now : ℚ) (hq : 3 ≤ quality) :
    (calculate_next_review quality .new interval ease_factor repetitions lapses
      stability adaptation_penalty learning_step_index now).new_state = .learning ∧
    (calculate_next_review quality .new interval ease_factor repetitions lapses
      stability adaptation_penalty learning_step_index now).new_due_date = now + 60 ∧
    (calculate_next_review quality .new interval ease_factor repetitions lapses
      stability adaptation_penalty learning_step_index now).new_ease_factor =
        sm2EaseUpdate ease_factor quality := by
  have hc : LAPSE_THRESHOLD ≤ quality := hq
  simp only [calculate_next_review, _handle_new_card, sm2EaseUpdate,
    decide_eq_true_eq, if_pos hc, LEARNING_STEPS_MINUTES, List.headI]
  norm_num

/-- C1 witness. -/
theorem c1_new_correct_starts_learning_witness :
    (calculate_next_review 5 .new 0 2.5 0 0 1 0 0 0).new_state = .learning ∧
    (calculate_next_review 5 .new 0 2.5 0 0 1 0 0 0).new_due_date = 0 + 60 ∧
    (calculate_next_review 5 .new 0 2.5 0 0 1 0 0 0).new_ease_factor =
      sm2EaseUpdate 2.5 5 :=
  c1_new_correct_starts_learning 5 0 2.5 0 0 1 0 0 0 (by decide)

/-- C2, counterexample: a Relearning-state item rated 0 keeps state
Relearning but gets `new_interval = 0` (sub-day 4-hour due date), so the
claimed `interval ≥ 1` invariant for Relearning fails. -/
theorem c2_counterexample :
    (calculate_next_review 0 .relearning 5 2.5 0 0 1 0 0 0).new_state = .relearning ∧
    (calculate_next_review 0 .relearning 5 2.5 0 0 1 0 0 0).new_interval = 0 ∧
    ¬ (1 ≤ (calculate_next_review 0 .relearning 5 2.5 0 0 1 0 0 0).new_interval) := by
  norm_num [calculate_next_review, _handle_relearning_card, LAPSE_THRESHOLD]

/-- C2, amended: whenever the resulting state is Review, the new interval is
at least 1; and whenever the resulting state is Relearning reached by a lapse
from Review, the new interval is at least 1.  (Only the Relearning-incorrect
branch, which keeps a sub-day due date, returns interval 0.) -/
theorem c2_interval_ge_one (quality : ℤ) (current_state : SRSCardState)
    (interval : ℤ) (ease_factor : ℚ) (repetitions lapses : ℤ)
    (stability adaptation_penalty : ℚ) (learning_step_index : ℕ) (now : ℚ)
    (h : (calculate_next_review quality current_state interval ease_factor
            repetitions lapses stability adaptation_penalty learning_step_index
            now).new_state = .review ∨
         ((calculate_next_review quality current_state interval ease_factor
            repetitions lapses stability adaptation_penalty learning_step_index
            now).new_state = .relearning ∧ current_state = .review)) :
    1 ≤ (calculate_next_review quality current_state interval ease_factor
          repetitions lapses stability adaptation_penalty learning_step_index
          now).new_interval := by
  cases current_state <;>
    simp only [calculate_next_review, _handle_new_card, _handle_learning_card,
      _handle_review_card, _handle_relearning_card] at h ⊢ <;>
    split_ifs at h ⊢ <;>
    simp_all <;>
    first
      | exact one_le_apply_penalty _ _ (by decide)
      | exact le_max_left _ _
      | decide

/-- C2 witness: a Learning item answering its final step correctly graduates
to Review with interval ≥ 1. -/
theorem c2_interval_ge_one_witness :
    1 ≤ (calculate_next_review 4 .learning 0 2.5 0 0 1 0 1 0).new_interval :=
  c2_interval_ge_one 4 .learning 0 2.5 0 0 1 0 1 0 (Or.inl rfl)

lemma ease_default_in_range :
    EASE_FACTOR_MIN ≤ (2.5 : ℚ) ∧ (2.5 : ℚ) ≤ EASE_FACTOR_MAX := by
  norm_num [EASE_FACTOR_MIN, EASE_FACTOR_MAX]

/-- C4: for every starting ease in [1.3, 3.5], state and quality in [0, 5],
the returned ease factor lies in [1.3, 3.5]; and every record along any
quality sequence of iterated reviews keeps its ease factor in that range. -/
theorem c4_ease_factor_clamped (quality : ℤ) (current_state : SRSCardState)
    (interval : ℤ) (ease_factor : ℚ) (repetitions lapses : ℤ)
    (stability adaptation_penalty : ℚ) (learning_step_index : ℕ) (now : ℚ)
    (cid uid : ℕ) (due0 last0 : Option ℚ) (qs : List (ℤ × ℚ)) (r : SRSStateM)
    (h1 : EASE_FACTOR_MIN ≤ ease_factor) (h2 : ease_factor ≤ EASE_FACTOR_MAX)
    (hq0 : 0 ≤ quality) (hq5 : quality ≤ 5)
    (hr : r ∈ review_trace
      { card_id := cid, user_id := uid, interval := interval,
        ease_factor := ease_factor, repetitions := repetitions,
        lapses := lapses, state := current_state, due_date := due0,
        last_reviewed_at := last0, stability := stability,
        adaptation_penalty := adaptation_penalty } qs) :
    (EASE_FACTOR_MIN ≤ (calculate_next_review quality current_state interval
        ease_factor repetitions lapses stability adaptation_penalty
        learning_step_index now).new_ease_factor ∧
      (calculate_next_review quality current_state interval ease_factor
        repetitions lapses stability adaptation_penalty learning_step_index
        now).new_ease_factor ≤ EASE_FACTOR_MAX) ∧
    (EASE_FACTOR_MIN ≤ r.ease_factor ∧ r.ease_factor ≤ EASE_FACTOR_MAX) :=
  ⟨new_ease_factor_bounds quality current_state interval ease_factor
      repetitions lapses stability adaptation_penalty learning_step_index now,
    review_trace_ease_bounds _ qs h1 h2 r hr⟩

/-- C4 witness. -/
theorem c4_ease_factor_clamped_witness :
    (EASE_FACTOR_MIN ≤ (calculate_next_review 4 .review 1 2.5 0 0 1 0 0
        0).new_ease_factor ∧
      (calculate_next_review 4 .review 1 2.5 0 0 1 0 0 0).new_ease_factor ≤
        EASE_FACTOR_MAX) ∧
    (EASE_FACTOR_MIN ≤
        ({ card_id := 1, user_id := 1, interval := 1, ease_factor := 2.5,
           repetitions := 0, lapses := 0, state := .review, due_date := none,
           last_reviewed_at := none, stability := 1,
           adaptation_penalty := 0 } : SRSStateM).ease_factor ∧
      ({ card_id := 1, user_id := 1, interval := 1, ease_factor := 2.5,
         repetitions := 0, lapses := 0, state := .review, due_date := none,
         last_reviewed_at := none, stability := 1,
         adaptation_penalty := 0 } : SRSStateM).ease_factor ≤ EASE_FACTOR_MAX) :=
  c4_ease_factor_clamped 4 .review 1 2.5 0 0 1 0 0 0 1 1 none none [] _
    ease_default_in_range.1 ease_default_in_range.2 (by decide) (by decide)
    (List.mem_singleton.mpr rfl)

/-- C5, counterexample: at raw interval 0 and penalty 1, the 1-day floor
raises the result to 1 > 0, so `adjusted ≤ raw` fails at raw = 0. -/
theorem c5_counterexample :
    _apply_adaptation_penalty 0 1 = 1 ∧ ¬ _apply_adaptation_penalty 0 1 ≤ 0 := by
  norm_num [_apply_adaptation_penalty, pyRound, ADAPTATION_PENALTY_MULTIPLIER]

/-- C5, amended: for every raw day-interval ≥ 1 and penalty in [0, 1] the
adjusted interval is at most the raw one, with equality at penalty 0; a
penalty of 1.0 multiplies the raw interval by 0.70 before rounding and the
1-day floor. -/
theorem c5_adjusted_le_raw (raw : ℤ) (penalty : ℚ) (hraw : 1 ≤ raw)
    (h0 : 0 ≤ penalty) (h1 : penalty ≤ 1) :
    _apply_adaptation_penalty raw penalty ≤ raw ∧
    (penalty = 0 → _apply_adaptation_penalty raw penalty = raw) ∧
    _apply_adaptation_penalty raw 1 = max 1 (pyRound ((raw : ℚ) * 0.70)) := by
  refine ⟨?_, ?_, ?_⟩
  · unfold _apply_adaptation_penalty
    split_ifs with hp
    · exact le_refl raw
    · have hm : 1 - penalty * (1 - ADAPTATION_PENALTY_MULTIPLIER) ≤ 1 := by
        have : (0 : ℚ) ≤ penalty * (1 - ADAPTATION_PENALTY_MULTIPLIER) :=
          mul_nonneg h0 (by norm_num [ADAPTATION_PENALTY_MULTIPLIER])
        linarith
      have hcast : (0 : ℚ) ≤ (raw : ℚ) := by
        exact_mod_cast (by omega : (0 : ℤ) ≤ raw)
      have hle : (raw : ℚ) * (1 - penalty * (1 - ADAPTATION_PENALTY_MULTIPLIER)) ≤
          (raw : ℚ) := mul_le_of_le_one_right hcast hm
      have hceil :
          ⌈(raw : ℚ) * (1 - penalty * (1 - ADAPTATION_PENALTY_MULTIPLIER))⌉ ≤ raw := by
        rw [Int.ceil_le]
        exact hle
      exact max_le hraw (le_trans (pyRound_le_ceil _) hceil)
  · intro h
    rw [h, _apply_adaptation_penalty, if_pos (le_refl (0 : ℚ))]
  · unfold _apply_adaptation_penalty
    rw [if_neg (by norm_num)]
    norm_num [ADAPTATION_PENALTY_MULTIPLIER]

/-- C5 witness. -/
theorem c5_adjusted_le_raw_witness :
    _apply_adaptation_penalty 6 1 ≤ 6 ∧
    ((1 : ℚ) = 0 → _apply_adaptation_penalty 6 1 = 6) ∧
    _apply_adaptation_penalty 6 1 = max 1 (pyRound ((6 : ℚ) * 0.70)) :=
  c5_adjusted_le_raw 6 1 (by decide) (by decide) (by decide)

/-- C6: a Review-state item rated incorrect (quality < 3) transitions to
Relearning with lapses + 1, a 1-day interval, the (updated) ease reduced by
0.20 and floored at 1.3, stability `max(0.5, stability × 0.5)` and
repetitions reset to 0. -/
theorem c6_review_incorrect_lapses (quality interval : ℤ) (ease_factor : ℚ)
    (repetitions lapses : ℤ) (stability adaptation_penalty : ℚ)
    (learning_step_index : ℕ) (now : ℚ) (hq : quality < 3) :
    (calculate_next_review quality .review interval ease_factor repetitions
      lapses stability adaptation_penalty learning_step_index now).new_state =
        .relearning ∧
    (calculate_next_review quality .review interval ease_factor repetitions
      lapses stability adaptation_penalty learning_step_index now).new_lapses =
        lapses + 1 ∧
    (calculate_next_review quality .review interval ease_factor repetitions
      lapses stability adaptation_penalty learning_step_index now).new_interval = 1 ∧
    (calculate_next_review quality .review interval ease_factor repetitions
      lapses stability adaptation_penalty learning_step_index now).new_ease_factor =
        max EASE_FACTOR_MIN (sm2EaseUpdate ease_factor quality - LAPSE_EASE_PENALTY) ∧
    (calculate_next_review quality .review interval ease_factor repetitions
      lapses stability adaptation_penalty learning_step_index now).new_stability =
        max 0.5 (stability * 0.5) ∧
    (calculate_next_review quality .review interval ease_factor repetitions
      lapses stability adaptation_penalty learning_step_index now).new_repetitions =
        0 := by
  have hnot : ¬ ((3 : ℤ) ≤ quality) := not_le.mpr hq
  simp [calculate_next_review, _handle_review_card, LAPSE_THRESHOLD,
    sm2EaseUpdate, hnot, RELEARNING_INTERVAL_DAYS]

/-- C6 witness. -/
theorem c6_review_incorrect_lapses_witness :
    (calculate_next_review 2 .review 10 2.5 3 1 5 0 0 0).new_state = .relearning ∧
    (calculate_next_review 2 .review 10 2.5 3 1 5 0 0 0).new_lapses = 1 + 1 ∧
    (calculate_next_review 2 .review 10 2.5 3 1 5 0 0 0).new_interval = 1 ∧
    (calculate_next_review 2 .review 10 2.5 3 1 5 0 0 0).new_ease_factor =
      max EASE_FACTOR_MIN (sm2EaseUpdate 2.5 2 - LAPSE_EASE_PENALTY) ∧
    (calculate_next_review 2 .review 10 2.5 3 1 5 0 0 0).new_stability =
      max 0.5 ((5 : ℚ) * 0.5) ∧
    (calculate_next_review 2 .review 10 2.5 3 1 5 0 0 0).new_repetitions = 0 :=
  c6_review_incorrect_lapses 2 10 2.5 3 1 5 0 0 0 (by decide)

/-- C7: the urgency score equals
`state_priority(state) + max(0, delay_hours × 2) + lapses × 5` with zero
delay when `due_at` is null or not yet due, and is monotonically
non-decreasing in the delay (earlier due dates never score lower). -/
theorem c7_urgency_score_formula (due_at : Option ℚ) (state : SRSCardState)
    (lapses : ℤ) (now t t' : ℚ) (h : t' ≤ t) :
    get_card_urgency_score due_at state lapses now =
      urgency_score_spec due_at state lapses now ∧
    get_card_urgency_score (some t) state lapses now ≤
      get_card_urgency_score (some t') state lapses now := by
  constructor
  · cases due_at with
    | none =>
        simp only [get_card_urgency_score, urgency_score_spec, delay_hours_spec]
        ring_nf
        norm_num
    | some d =>
        simp only [get_card_urgency_score, urgency_score_spec, delay_hours_spec]
        rcases lt_or_le now d with hlt | hle
        · rw [if_pos hlt]
          have hdiv : (now - d) / 3600 * 2 ≤ 0 := by
            have hneg : now - d < 0 := by linarith
            have : (now - d) / 3600 < 0 := div_neg_of_neg_of_pos hneg (by norm_num)
            linarith
          rw [max_eq_left hdiv]
          norm_num
        · rw [if_neg (not_lt.mpr hle)]
          ring
  · have key : max 0 ((now - t) / 3600 * 2) ≤ max 0 ((now - t') / 3600 * 2) := by
      refine max_le_max (le_refl 0) ?_
      have hsub : now - t ≤ now - t' := by linarith
      have hdiv : (now - t) / 3600 ≤ (now - t') / 3600 :=
        div_le_div_of_nonneg_right hsub (by norm_num)
      linarith
    simp only [get_card_urgency_score]
    linarith [key]

/-- C7 witness. -/
theorem c7_urgency_score_formula_witness :
    (get_card_urgency_score none .review 2 0 =
      urgency_score_spec none .review 2 0) ∧
    get_card_urgency_score (some 0) .review 2 0 ≤
      get_card_urgency_score (some 0) .review 2 0 :=
  c7_urgency_score_formula none .review 2 0 0 0 (le_refl 0)

/-- C8: for every non-empty BuildSentence submission that fails exact and
alternative matching, equal word sets give incorrect/0.7/"order"; otherwise a
word-overlap ratio ≥ 0.7 gives incorrect with that ratio as score and
category "order"; otherwise incorrect/0/"meaning". -/
theorem c8_build_sentence_partition (user_answer expected_answer : String)
    (tolerance : ℚ)
    (h1 : _py_strip user_answer.toList ≠ [])
    (h2 : _normalize_answer user_answer ≠ _normalize_answer expected_answer)
    (h3 : _normalize_answer user_answer ∉
      ((_split_on_char '/' expected_answer.toList).map String.mk).map _normalize_answer) :
    (_word_set (_normalize_answer user_answer) =
        _word_set (_normalize_answer expected_answer) →
      evaluate_answer user_answer expected_answer .build_sentence tolerance =
        { is_correct := false, score := 0.7,
          feedback := "Palavras corretas, mas a ordem está errada. Correto: " ++
            expected_answer,
          error_category := some "order" }) ∧
    (_word_set (_normalize_answer user_answer) ≠
        _word_set (_normalize_answer expected_answer) →
      (0.7 : ℚ) ≤ (((_word_set (_normalize_answer user_answer) ∩
            _word_set (_normalize_answer expected_answer)).card : ℚ) /
          ((_word_set (_normalize_answer expected_answer)).card : ℚ)) →
      evaluate_answer user_answer expected_answer .build_sentence tolerance =
        { is_correct := false,
          score := ((_word_set (_normalize_answer user_answer) ∩
              _word_set (_normalize_answer expected_answer)).card : ℚ) /
            ((_word_set (_normalize_answer expected_answer)).card : ℚ),
          feedback := "Quase! Verifique as palavras. Correto: " ++ expected_answer,
          error_category := some "order" }) ∧
    (_word_set (_normalize_answer user_answer) ≠
        _word_set (_normalize_answer expected_answer) →
      (((_word_set (_normalize_answer user_answer) ∩
            _word_set (_normalize_answer expected_answer)).card : ℚ) /
          ((_word_set (_normalize_answer expected_answer)).card : ℚ)) < 0.7 →
      evaluate_answer user_answer expected_answer .build_sentence tolerance =
        { is_correct := false, score := 0,
          feedback := "Resposta incorreta. Correto: " ++ expected_answer,
          error_category := some "meaning" }) := by
  have hev : evaluate_answer user_answer expected_answer .build_sentence tolerance =
      _evaluate_build_sentence (_normalize_answer user_answer)
        (_normalize_answer expected_answer) user_answer expected_answer := by
    simp only [evaluate_answer]
    rw [if_neg h1, if_neg h2, if_neg h3]
  refine ⟨fun hw => ?_, fun hw hr => ?_, fun hw hr => ?_⟩
  · rw [hev]
    simp only [_evaluate_build_sentence]
    rw [if_pos hw]
  · rw [hev]
    simp only [_evaluate_build_sentence]
    have hpos : 0 < (_word_set (_normalize_answer expected_answer)).card := by
      rcases Nat.eq_zero_or_pos (_word_set (_normalize_answer expected_answer)).card
        with h0 | hp
      · exfalso
        rw [h0] at hr
        norm_num at hr
      · exact hp
    rw [if_neg hw, if_pos ⟨hpos, hr⟩]
  · rw [hev]
    simp only [_evaluate_build_sentence]
    rw [if_neg hw, if_neg (fun hc => absurd hc.2 (not_le.mpr hr))]

/-- C8 witness: "b a" against expected "a b" — same word set, wrong order. -/
theorem c8_build_sentence_partition_witness :
    evaluate_answer "b a" "a b" .build_sentence 0.85 =
      { is_correct := false, score := 0.7,
        feedback := "Palavras corretas, mas a ordem está errada. Correto: " ++ "a b",
        error_category := some "order" } :=
  (c8_build_sentence_partition "b a" "a b" 0.85 (by decide) (by decide)
    (by decide)).1 (by decide)

/-- C9: submitting a review for a (learner, item) pair with no Scheduling
Record yields the not-found error and returns the database exactly as it was:
nothing is created and no record is mutated. -/
theorem c9_submit_review_not_found (user_id card_id : ℕ) (quality : ℤ)
    (response_time_ms : Option ℤ) (now : ℚ) (db : Database)
    (h : db.srs_states.find?
      (fun s => s.card_id = card_id ∧ s.user_id = user_id) = none) :
    submit_review user_id card_id quality response_time_ms now db =
      (Except.error ("SRSState não encontrado para card " ++ toString card_id), db) := by
  simp only [submit_review]
  rw [h]

/-- C9 witness. -/
theorem c9_submit_review_not_found_witness :
    submit_review 1 2 4 none 0 ⟨[], [], [], [], [], []⟩ =
      (Except.error ("SRSState não encontrado para card " ++ toString 2),
        (⟨[], [], [], [], [], []⟩ : Database)) :=
  c9_submit_review_not_found 1 2 4 none 0 ⟨[], [], [], [], [], []⟩ rfl

/-- C10: when every pattern of the (user, type) pair is inactive, the upsert
matches nothing: it appends a fresh pattern with count 1, severity 0.2 and
leaves every existing (hence every deactivated) pattern untouched. -/
theorem c10_upsert_ignores_inactive (user_id : ℕ) (pattern_type : PatternType)
    (affected_cards : List ℕ) (now : ℚ) (patterns : List ErrorPatternM)
    (h : ∀ p ∈ patterns, p.user_id = user_id → p.pattern_type = pattern_type →
      p.is_active = false) :
    (_upsert_pattern user_id pattern_type affected_cards now patterns).1 =
      { user_id := user_id, pattern_type := pattern_type, count := 1,
        severity := SEVERITY_INCREMENT, items_affected := affected_cards.toFinset,
        is_active := true, last_seen_at := now } ∧
    (_upsert_pattern user_id pattern_type affected_cards now patterns).2 =
      patterns ++
        [(_upsert_pattern user_id pattern_type affected_cards now patterns).1] ∧
    SEVERITY_INCREMENT = 0.2 := by
  have hfind : patterns.find?
      (fun p => p.user_id = user_id ∧ p.pattern_type = pattern_type ∧ p.is_active) =
      none := by
    rw [List.find?_eq_none]
    intro p hp
    simp only [decide_eq_true_eq, not_and]
    intro hu ht
    simp [h p hp hu ht]
  simp only [_upsert_pattern]
  rw [hfind]
  refine ⟨rfl, rfl, by norm_num [SEVERITY_INCREMENT]⟩

/-- C10 witness: a deactivated vocabulary pattern is not reactivated; a fresh
one is appended after it. -/
theorem c10_upsert_ignores_inactive_witness :
    (_upsert_pattern 1 .vocab_weakness [5] 0
      [{ user_id := 1, pattern_type := .vocab_weakness, count := 3, severity := 1,
         items_affected := {4}, is_active := false, last_seen_at := 0 }]).1 =
      { user_id := 1, pattern_type := .vocab_weakness, count := 1,
        severity := SEVERITY_INCREMENT, items_affected := ([5] : List ℕ).toFinset,
        is_active := true, last_seen_at := 0 } ∧
    (_upsert_pattern 1 .vocab_weakness [5] 0
      [{ user_id := 1, pattern_type := .vocab_weakness, count := 3, severity := 1,
         items_affected := {4}, is_active := false, last_seen_at := 0 }]).2 =
      [{ user_id := 1, pattern_type := .vocab_weakness, count := 3, severity := 1,
         items_affected := {4}, is_active := false, last_seen_at := 0 }] ++
        [(_upsert_pattern 1 .vocab_weakness [5] 0
          [{ user_id := 1, pattern_type := .vocab_weakness, count := 3, severity := 1,
             items_affected := {4}, is_active := false, last_seen_at := 0 }]).1] ∧
    SEVERITY_INCREMENT = 0.2 :=
  c10_upsert_ignores_inactive 1 .vocab_weakness [5] 0 _ (by simp)

lemma updateFirst_filter_eq {α : Type} (pred : α → Bool) (upd : α) (P : α → Bool)
    (hupd : P upd = false) (hpred : ∀ a, pred a = true → P a = false) :
    ∀ l : List α, (updateFirst pred (fun _ => upd) l).filter P = l.filter P := by
  intro l
  induction l with
  | nil => rfl
  | cons x xs ih =>
      by_cases hx : pred x = true
      · have hstep : updateFirst pred (fun _ => upd) (x :: xs) = upd :: xs := by
          simp [updateFirst, hx]
        rw [hstep, List.filter_cons, List.filter_cons, hupd, hpred x hx]
        simp
      · have hstep : updateFirst pred (fun _ => upd) (x :: xs) =
            x :: updateFirst pred (fun _ => upd) xs := by
          simp [updateFirst, hx]
        rw [hstep, List.filter_cons, List.filter_cons, ih]

lemma upsert_filter_preserved (u : ℕ) (t : PatternType) (cards : List ℕ)
    (now : ℚ) (patterns : List ErrorPatternM) (P : ErrorPatternM → Bool)
    (hP : ∀ p : ErrorPatternM, p.pattern_type = t → P p = false) :
    ((_upsert_pattern u t cards now patterns).2).filter P = patterns.filter P := by
  simp only [_upsert_pattern]
  cases hfind : patterns.find?
      (fun p => p.user_id = u ∧ p.pattern_type = t ∧ p.is_active) with
  | some existing =>
      have hex := List.find?_some hfind
      simp only [decide_eq_true_eq] at hex
      refine updateFirst_filter_eq _ _ P ?_ ?_ patterns
      · exact hP _ hex.2.1
      · intro a ha
        simp only [decide_eq_true_eq] at ha
        exact hP a ha.2.1
  | none =>
      have hfresh : P ⟨u, t, 1, SEVERITY_INCREMENT, cards.toFinset, true, now⟩ = false :=
        hP _ rfl
      simp [List.filter_append, hfresh]

lemma analyze_vocab_filter_preserved (u : ℕ) (reviews : List ReviewLogM) (now : ℚ)
    (cards : List CardM) (patterns : List ErrorPatternM) (srs : List SRSStateM)
    (P : ErrorPatternM → Bool)
    (hP : ∀ p : ErrorPatternM, p.pattern_type = PatternType.vocab_weakness → P p = false) :
    (_analyze_vocab_errors u reviews now cards patterns srs).2.1.filter P =
      patterns.filter P := by
  simp only [_analyze_vocab_errors]
  split_ifs
  · rfl
  · exact upsert_filter_preserved _ _ _ _ _ P hP
  · rfl

lemma analyze_grammar_filter_preserved (u : ℕ) (reviews : List ReviewLogM) (now : ℚ)
    (cards : List CardM) (patterns : List ErrorPatternM) (srs : List SRSStateM)
    (P : ErrorPatternM → Bool)
    (hP : ∀ p : ErrorPatternM, p.pattern_type = PatternType.grammar_confusion → P p = false) :
    (_analyze_grammar_errors u reviews now cards patterns srs).2.1.filter P =
      patterns.filter P := by
  simp only [_analyze_grammar_errors]
  split_ifs
  · rfl
  · exact upsert_filter_preserved _ _ _ _ _ P hP
  · rfl

lemma analyze_structure_filter_preserved (u : ℕ) (subs : List ExerciseSubmissionM)
    (now : ℚ) (exercises : List ExerciseM) (patterns : List ErrorPatternM)
    (P : ErrorPatternM → Bool)
    (hP : ∀ p : ErrorPatternM, p.pattern_type = PatternType.structure_confusion → P p = false) :
    (_analyze_structure_errors u subs now exercises patterns).2.filter P =
      patterns.filter P := by
  simp only [_analyze_structure_errors]
  split_ifs
  · rfl
  · exact upsert_filter_preserved _ _ _ _ _ P hP
  · rfl

/-- C3, counterexample: five total Review Events in the window, of which only
ONE is in the vocabulary category (and incorrect).  Though the vocabulary
category has 1 < 5 samples, the detector still creates a vocab-weakness
pattern — the minimum-sample gate counts all reviews, not those per category. -/
theorem c3_counterexample :
    ((recent_review_logs 7 0
        ⟨[⟨1, .vocab⟩, ⟨2, .grammar⟩, ⟨3, .grammar⟩, ⟨4, .grammar⟩, ⟨5, .grammar⟩], [],
          [⟨1, 7, 0, none, false, 0⟩, ⟨2, 7, 5, none, true, 0⟩, ⟨3, 7, 5, none, true, 0⟩,
           ⟨4, 7, 5, none, true, 0⟩, ⟨5, 7, 5, none, true, 0⟩], [], [], []⟩).filter
        (fun r => _get_card_type r.card_id
          [⟨1, .vocab⟩, ⟨2, .grammar⟩, ⟨3, .grammar⟩, ⟨4, .grammar⟩, ⟨5, .grammar⟩] =
            some CardType.vocab)).length = 1 ∧
    ((analyze_and_update_patterns 7 0
        ⟨[⟨1, .vocab⟩, ⟨2, .grammar⟩, ⟨3, .grammar⟩, ⟨4, .grammar⟩, ⟨5, .grammar⟩], [],
          [⟨1, 7, 0, none, false, 0⟩, ⟨2, 7, 5, none, true, 0⟩, ⟨3, 7, 5, none, true, 0⟩,
           ⟨4, 7, 5, none, true, 0⟩, ⟨5, 7, 5, none, true, 0⟩], [], [], []⟩).2.error_patterns.map
        (fun p => p.pattern_type)) = [PatternType.vocab_weakness] := by
  constructor <;>
    norm_num +decide [recent_review_logs, analyze_and_update_patterns, _analyze_vocab_errors,
      _analyze_grammar_errors, _analyze_structure_errors, _get_card_type,
      _upsert_pattern, _apply_srs_penalty_to_cards, recent_submissions_q,
      MIN_REVIEWS_FOR_ANALYSIS, ANALYSIS_WINDOW_DAYS, VOCAB_ERROR_THRESHOLD,
      GRAMMAR_ERROR_THRESHOLD, List.filter, List.find?, updateFirst]

/-- C3, amended: the minimum-sample gate is on the total count of trailing
window records per record type — fewer than 5 Review Events means no
vocabulary or grammar pattern is created or updated, and fewer than 5 Answer
Submissions means no structure pattern is created or updated. -/
theorem c3_min_total_samples_gate (user_id : ℕ) (now : ℚ) (db : Database) :
    ((recent_review_logs user_id now db).length < MIN_REVIEWS_FOR_ANALYSIS →
      (analyze_and_update_patterns user_id now db).2.error_patterns.filter
          (fun p => p.pattern_type ≠ PatternType.structure_confusion) =
        db.error_patterns.filter
          (fun p => p.pattern_type ≠ PatternType.structure_confusion)) ∧
    ((recent_submissions_q user_id now db).length < MIN_REVIEWS_FOR_ANALYSIS →
      (analyze_and_update_patterns user_id now db).2.error_patterns.filter
          (fun p => p.pattern_type = PatternType.structure_confusion) =
        db.error_patterns.filter
          (fun p => p.pattern_type = PatternType.structure_confusion)) := by
  constructor
  · intro h
    simp only [analyze_and_update_patterns]
    rw [if_neg (not_le.mpr h)]
    split_ifs with hs
    · exact analyze_structure_filter_preserved _ _ _ _ _ _
        (fun p hp => by simp [hp])
    · rfl
  · intro h
    simp only [analyze_and_update_patterns]
    rw [if_neg (not_le.mpr h)]
    split_ifs with hr
    · exact (analyze_grammar_filter_preserved _ _ _ _ _ _ _
          (fun p hp => by simp [hp])).trans
        (analyze_vocab_filter_preserved _ _ _ _ _ _ _
          (fun p hp => by simp [hp]))
    · rfl

/-- C3 witness. -/
theorem c3_min_total_samples_gate_witness :
    (analyze_and_update_patterns 1 0 ⟨[], [], [], [], [], []⟩).2.error_patterns.filter
        (fun p => p.pattern_type ≠ PatternType.structure_confusion) =
      (⟨[], [], [], [], [], []⟩ : Database).error_patterns.filter
        (fun p => p.pattern_type ≠ PatternType.structure_confusion) :=
  (c3_min_total_samples_gate 1 0 ⟨[], [], [], [], [], []⟩).1 (by decide)

end Singular
